import Mathlib

/-!
Verification of the music-and-mental-health dashboard (src/app.py) against its
specification.

Shallow embedding conventions:
* A dataframe row is a `Record`; a dataframe is a `List Record`.  Filtering
  produces sublists, never mutates the base list.
* Missing values (NaN) are `Option.none`; the health, hours, age, BPM columns
  are numeric-or-missing (`Option ℚ`), matching the CSV columns' numeric dtype.
* The genre-frequency columns hold raw CSV cells which may be strings, so they
  are modelled by `Cell` (missing / numeric / string).  `pandas.replace` leaves
  values it cannot map unchanged; a numeric comparison on a leftover string
  raises `TypeError`, modelled with `Except String`.
* Machine floats are modelled by `ℚ`: every arithmetic operation the script
  performs (means, quantile interpolation, clipping) is exact on the observed
  value ranges.
-/

/-- A raw CSV cell of a genre-frequency column: missing (NaN), numeric, or a
string. -/
inductive Cell
  | na : Cell
  | num (q : ℚ) : Cell
  | str (s : String) : Cell
deriving DecidableEq, Repr

/-- The ordinal encoding of the four-level frequency vocabulary
(src/app.py lines 22-27, `freq_map`). -/
def freqMap (s : String) : Option ℚ :=
  if s = "Never" then some 0
  else if s = "Rarely" then some 1
  else if s = "Sometimes" then some 2
  else if s = "Very frequently" then some 3
  else none

/-- `df[genre_freq_cols].replace(freq_map)` applied to one cell (line 30).
`pandas.DataFrame.replace` maps values found in the dictionary and leaves every
other value unchanged -- an unmapped string stays a string. -/
def replaceCell (c : Cell) : Cell :=
  match c with
  | Cell.str s =>
      match freqMap s with
      | some q => Cell.num q
      | none => Cell.str s
  | c => c

/-- The elementwise comparison `df[genre_freq_cols] >= 2` (line 31).
`NaN >= 2` is `False`; comparing a string with an integer raises `TypeError`. -/
def cellGe2 (c : Cell) : Except String Bool :=
  match c with
  | Cell.na => Except.ok false
  | Cell.num q => Except.ok (decide (2 ≤ q))
  | Cell.str _ => Except.error "TypeError"

/-- Elementwise `>= 2` over a whole row of genre-frequency cells; the first
string cell aborts the comparison. -/
def exceptMapGe2 : List Cell → Except String (List Bool)
  | [] => Except.ok []
  | c :: tl =>
      match cellGe2 c, exceptMapGe2 tl with
      | Except.error e, _ => Except.error e
      | Except.ok _, Except.error e => Except.error e
      | Except.ok b, Except.ok bs => Except.ok (b :: bs)

/-- `df["active_genre_count"] = (df[genre_freq_cols] >= 2).sum(axis=1)`
(line 31), applied after the `replace` of line 30.  `sum` of booleans counts the
`True`s. -/
def activeGenreCount (cells : List Cell) : Except String ℕ :=
  match exceptMapGe2 (cells.map replaceCell) with
  | Except.error e => Except.error e
  | Except.ok bs => Except.ok (bs.countP id)

/-- `lambda x: "Single" if x == 1 else "Multiple"` (line 32). -/
def listeningType (n : ℕ) : String :=
  if n = 1 then "Single" else "Multiple"

/-- The derived `listening_type` column: `listeningType` applied to the active
genre count (line 32). -/
def activeListeningType (cells : List Cell) : Except String String :=
  match activeGenreCount cells with
  | Except.error e => Except.error e
  | Except.ok n => Except.ok (listeningType n)

/-- `pd.to_numeric(errors="coerce")` on one cell (line 36): numbers pass
through, everything else coerces to NaN.  (A numeric-looking string would
parse, but a string cell surviving the `replace` of line 30 is an unmapped
frequency word, never a numeral, so strings are modelled as non-numeric.) -/
def toNumeric (c : Cell) : Option ℚ :=
  match c with
  | Cell.na => none
  | Cell.num q => some q
  | Cell.str _ => none

/-- One row of the survey table after `pd.read_csv` (line 14), restricted to
the columns the pipeline reads.  `health` fields are the four fixed columns
Anxiety, Depression, Insomnia, OCD (line 17); `freq` holds the genre-frequency
columns (lines 18, 29) in column order. -/
structure Record where
  hoursPerDay : Option ℚ
  age : Option ℚ
  bpm : Option ℚ
  favGenre : Option String
  exploratory : Option String
  musicEffects : Option String
  freq : List Cell
  anxiety : Option ℚ
  depression : Option ℚ
  insomnia : Option ℚ
  ocd : Option ℚ
deriving DecidableEq, Repr

/-- All four health scores present. -/
def hasAllHealth (r : Record) : Bool :=
  r.anxiety.isSome && r.depression.isSome && r.insomnia.isSome && r.ocd.isSome

/-- The membership test of
`df.dropna(subset=health_cols + ["Hours per day", "Exploratory", "Music effects"])`
(line 35). -/
def hasRequired (r : Record) : Bool :=
  hasAllHealth r && r.hoursPerDay.isSome && r.exploratory.isSome &&
    r.musicEffects.isSome

/-- `df_clean` (line 35): drop every record missing a required field. -/
def cleanTable (df : List Record) : List Record :=
  df.filter hasRequired

/-- The present health values of a record, in column order. -/
def healthVals (r : Record) : List ℚ :=
  [r.anxiety, r.depression, r.insomnia, r.ocd].filterMap id

/-- `df_clean["Avg_health"] = df_clean[health_cols].mean(axis=1)` (line 44):
the row-wise mean skips missing values and is NaN when all are missing. -/
def avgHealth (r : Record) : Option ℚ :=
  let vs := healthVals r
  if vs.length = 0 then none else some (vs.sum / (vs.length : ℚ))

/-- `df_clean["Variety"] = (df_clean[genre_cols] > 0).sum(axis=1)` (line 43),
over the genre columns after `replace` (line 30) and numeric coercion
(line 36); `NaN > 0` is `False`. -/
def variety (r : Record) : ℕ :=
  (r.freq.map (fun c => toNumeric (replaceCell c))).countP
    (fun o => match o with | some q => decide (0 < q) | none => false)

/-- `Series.between(lo, hi)`: inclusive on both ends. -/
def between (x lo hi : ℚ) : Bool :=
  decide (lo ≤ x) && decide (x ≤ hi)

/-- `between` on a possibly-missing value: `NaN.between(lo, hi)` is `False`. -/
def optBetween (x : Option ℚ) (lo hi : ℚ) : Bool :=
  match x with
  | some v => between v lo hi
  | none => false

/-- `df['Age_Group'] = pd.cut(df['Age'], bins=[0,25,40,60,100], ...)`
(lines 217-222): half-open intervals (0,25],(25,40],(40,60],(60,100] with
`include_lowest=True` making the first interval [0,25]; ages outside [0,100]
get no label (NaN). -/
def ageGroup (a : ℚ) : Option String :=
  if a < 0 then none
  else if a ≤ 25 then some "18-25"
  else if a ≤ 40 then some "26-40"
  else if a ≤ 60 then some "41-60"
  else if a ≤ 100 then some "60+"
  else none

/-- Python `int()`: truncation toward zero. -/
def pyInt (q : ℚ) : ℤ :=
  if 0 ≤ q then ⌊q⌋ else ⌈q⌉

/-- `.min()` of a numeric column (missing values skipped); `none` on an empty
column, where pandas would return NaN. -/
def listMin : List ℚ → Option ℚ
  | [] => none
  | x :: xs =>
      match listMin xs with
      | none => some x
      | some m => some (min x m)

/-- `.max()` of a numeric column (missing values skipped). -/
def listMax : List ℚ → Option ℚ
  | [] => none
  | x :: xs =>
      match listMax xs with
      | none => some x
      | some m => some (max x m)

/-- The `Hours per day` column of a table. -/
def colHours (t : List Record) : List ℚ := t.filterMap (fun r => r.hoursPerDay)

/-- The `Avg_health` column of a table. -/
def colAvg (t : List Record) : List ℚ := t.filterMap (fun r => avgHealth r)

/-- The `BPM` column of a table. -/
def colBpm (t : List Record) : List ℚ := t.filterMap (fun r => r.bpm)

/-- The three sidebar range controls (lines 51-64): hours per day, average
health, and the optional BPM range.  `bpmR = none` models the absent tempo
column (`bpm_range = None`, line 64). -/
structure Ranges where
  hoursLo : ℚ
  hoursHi : ℚ
  healthLo : ℚ
  healthHi : ℚ
  bpmR : Option (ℚ × ℚ)
deriving DecidableEq, Repr

/-- The filter engine (lines 67-73): conjunction of the inclusive `between`
predicates; the BPM predicate is applied only when the BPM control exists. -/
def primaryView (clean : List Record) (rg : Ranges) : List Record :=
  let base := clean.filter (fun r =>
    optBetween r.hoursPerDay rg.hoursLo rg.hoursHi &&
      optBetween (avgHealth r) rg.healthLo rg.healthHi)
  match rg.bpmR with
  | some p => base.filter (fun r => optBetween r.bpm p.1 p.2)
  | none => base

/-- The full-range default setting of every control, as the code computes it
(lines 51-64): hours bounds are `int()`-truncated observed min/max, health
bounds are the exact observed min/max, and the BPM bounds are
`int(min)` and `int(min(max, 250))`.  Returns the resulting filtered view;
`none` when a needed column minimum does not exist (where `int(NaN)` would
raise). -/
def sessionFullRange (df : List Record) (hasBpm : Bool) :
    Option (List Record) :=
  let clean := cleanTable df
  match listMin (colHours clean), listMax (colHours clean),
      listMin (colAvg clean), listMax (colAvg clean) with
  | some hmin, some hmax, some amin, some amax =>
      if hasBpm then
        match listMin (colBpm clean), listMax (colBpm clean) with
        | some bmin, some bmax =>
            some (primaryView clean
              ⟨(pyInt hmin : ℤ), (pyInt hmax : ℤ), amin, amax,
                some ((pyInt bmin : ℤ), (pyInt (min bmax 250) : ℤ))⟩)
        | _, _ => none
      else
        some (primaryView clean
          ⟨(pyInt hmin : ℤ), (pyInt hmax : ℤ), amin, amax, none⟩)
  | _, _, _, _ => none

/-- The upper bound of the BPM slider:
`bpm_max = int(min(df_clean[bpm_col].max(), 250))` (line 61). -/
def bpmSliderMax (clean : List Record) : Option ℤ :=
  (listMax (colBpm clean)).map (fun m => pyInt (min m 250))

/-- `np.linspace(0, 1, num_bins + 1)` with `num_bins = 5` (line 138). -/
def linspace6 : List ℚ := [0, 1/5, 2/5, 3/5, 4/5, 1]

/-- `List.insertionSort` by `≤` on rationals: the ascending sort used to model
`np.quantile`'s internal sort and `np.unique`. -/
def sortQ (l : List ℚ) : List ℚ := l.insertionSort (fun a b => a ≤ b)

/-- One quantile of a sorted nonempty sample, by NumPy's default linear
interpolation: with `h = q * (n - 1)`, the result is
`a[⌊h⌋] + (h - ⌊h⌋) * (a[⌊h⌋ + 1] - a[⌊h⌋])`. -/
def quantile (s : List ℚ) (q : ℚ) : ℚ :=
  let n := s.length
  let h : ℚ := q * ((n : ℚ) - 1)
  let i : ℕ := (⌊h⌋).toNat
  let lo := s.getD i 0
  let hi := s.getD (i + 1) lo
  lo + (h - (i : ℚ)) * (hi - lo)

/-- Collapse adjacent duplicates of a sorted list (the deduplication step of
`np.unique`, line 140). -/
def dedupSorted : List ℚ → List ℚ
  | [] => []
  | [x] => [x]
  | x :: y :: tl =>
      if x = y then dedupSorted (y :: tl) else x :: dedupSorted (y :: tl)

/-- `np.unique`: sort, then drop duplicates. -/
def npUnique (l : List ℚ) : List ℚ := dedupSorted (sortQ l)

/-- `labels = [f"{int(bins[i])}-{int(bins[i+1])}" for i in range(len(bins)-1)]`
(line 141). -/
def mkLabels : List ℚ → List String
  | e1 :: e2 :: tl =>
      (toString (pyInt e1) ++ "-" ++ toString (pyInt e2)) :: mkLabels (e2 :: tl)
  | _ => []

/-- The clipped quantile edge list of lines 138-139, before deduplication. -/
def rawEdges (data : List ℚ) : List ℚ :=
  (linspace6.map (fun q => quantile (sortQ data) q)).map (fun e => min e 250)

/-- The BPM bin computation of lines 138-144 on the non-missing tempo values of
the filtered view: quantile edges over the data, edges clipped from above at
250 (`np.clip(bins, None, 250)` clips the EDGES, not the data), deduplicated,
then labelled.  Errors model the exceptions caught at line 162: `np.quantile`
raises on an empty sample, and `pd.cut` (whose `ordered` default is true)
raises when the integer-truncated labels collide.  A single deduplicated edge
is NOT an error: `pd.cut` with one break and an empty label list succeeds
silently -- every row is masked to NaN and no bin label is assigned. -/
def bpmBins (data : List ℚ) : Except String (List ℚ × List String) :=
  if data = [] then Except.error "quantile of empty sample"
  else
    let edges := npUnique (rawEdges data)
    let labels := mkLabels edges
    if labels.Nodup then Except.ok (edges, labels)
    else Except.error "labels must be unique if ordered=True"

/-- Interval search for `pd.cut` over the bins after the first: value `v` falls
in bin `i` when `prev < v ≤ e`. -/
def binIndexAux (prev : ℚ) (i : ℕ) (v : ℚ) : List ℚ → Option ℕ
  | [] => none
  | e :: tl =>
      if prev < v ∧ v ≤ e then some i else binIndexAux e (i + 1) v tl

/-- `pd.cut(x, bins=edges, include_lowest=True)` (line 144): the first interval
is `[e0, e1]`, later intervals are `(ei, ei+1]`; values outside every interval
get no bin (NaN). -/
def binIndex (edges : List ℚ) (v : ℚ) : Option ℕ :=
  match edges with
  | e0 :: e1 :: tl =>
      if e0 ≤ v ∧ v ≤ e1 then some 0 else binIndexAux e1 1 v tl
  | _ => none

/-- The `BPM_Range` label `pd.cut` assigns to one tempo value. -/
def bpmCut (edges : List ℚ) (labels : List String) (v : ℚ) : Option String :=
  (binIndex edges v).bind (fun i => labels[i]?)

/-- What a view computation hands outward: a chart for the renderer, a UI
warning/info box (`st.warning` / `st.info`), a server-console `print`, nothing
at all, or an uncaught exception. -/
inductive VOut
  | rowsChart (rows : List Record) : VOut
  | binChart (rows : List Record) (labels : List String) : VOut
  | genreChart (rows : List (String × ℚ)) : VOut
  | meltChart (rows : List (String × String × ℚ)) : VOut
  | uiWarning (msg : String) : VOut
  | uiInfo (msg : String) : VOut
  | consolePrint (msg : String) : VOut
  | silent : VOut
  | crash (msg : String) : VOut
deriving DecidableEq, Repr

/-- `genre_subset = filtered_df[["Fav genre"] + health_cols].dropna()`
(line 170). -/
def genreSubset (view : List Record) : List Record :=
  view.filter (fun r => r.favGenre.isSome && hasAllHealth r)

/-- The mean of a column of a group (`groupby(...).mean()`); groups produced by
`groupby` are nonempty, the 0 default is never exercised there. -/
def meanOf (l : List ℚ) : ℚ :=
  if l.length = 0 then 0 else l.sum / (l.length : ℚ)

/-- The rows of one favourite-genre group. -/
def groupRows (subset : List Record) (g : String) : List Record :=
  subset.filter (fun r => r.favGenre = some g)

/-- One row of `genre_means` (lines 172-173): the genre, and its `avg_score`
(mean of the four per-genre health means).  The four individual means are
determined by the same grouped rows; `avg_score` is what the sort consumes. -/
def genreRow (subset : List Record) (g : String) : String × ℚ :=
  let rows := groupRows subset g
  let m1 := meanOf (rows.filterMap (fun r => r.anxiety))
  let m2 := meanOf (rows.filterMap (fun r => r.depression))
  let m3 := meanOf (rows.filterMap (fun r => r.insomnia))
  let m4 := meanOf (rows.filterMap (fun r => r.ocd))
  (g, (m1 + m2 + m3 + m4) / 4)

/-- `genre_means` (lines 172-174): group by favourite genre (pandas sorts the
group keys), take per-group health means and `avg_score`, then
`sort_values("avg_score")`. -/
def genreMeans (subset : List Record) : List (String × ℚ) :=
  let keys := ((subset.filterMap (fun r => r.favGenre)).dedup).insertionSort
    (fun a b => a ≤ b)
  (keys.map (genreRow subset)).insertionSort (fun a b => a.2 ≤ b.2)

/-- The favourite-genre aggregation view (lines 169-190).  When the filtered
view is empty the outer `if` of line 169 has no `else`: nothing at all is
emitted.  When only the genre subset is empty, line 190 `print`s to the server
console. -/
def genreView (view : List Record) : VOut :=
  if view.isEmpty then VOut.silent
  else if (genreSubset view).isEmpty then
    VOut.consolePrint "No genre data available after filtering."
  else VOut.genreChart (genreMeans (genreSubset view))

/-- The `listening_type` of a record as an optional value.  A `TypeError`
during active-genre counting would already have killed the script at line 31;
the session model below is used on tables where counting succeeds. -/
def recordListeningType (r : Record) : Option String :=
  match activeGenreCount r.freq with
  | Except.ok n => some (listeningType n)
  | Except.error _ => none

/-- `subset = filtered_df[["listening_type"] + health_cols].dropna()`
(line 195). -/
def listeningSubset (view : List Record) : List Record :=
  view.filter (fun r => (recordListeningType r).isSome && hasAllHealth r)

/-- The melted rows of line 197: one `(listening_type, condition, score)` row
per record and health column. -/
def meltRows (view : List Record) : List (String × String × ℚ) :=
  (listeningSubset view).foldr (fun r acc =>
    (match recordListeningType r, r.anxiety, r.depression, r.insomnia, r.ocd with
     | some t, some a, some d, some i, some o =>
        [(t, "Anxiety", a), (t, "Depression", d), (t, "Insomnia", i),
         (t, "OCD", o)]
     | _, _, _, _, _ => []) ++ acc) []

/-- The listening-style aggregation view (lines 194-214).  The
`"listening_type" in filtered_df.columns` guard is always true (the column is
created for every row at line 32); an empty subset is `print`ed to the console
(line 212), not surfaced in the UI. -/
def listeningView (view : List Record) : VOut :=
  if (listeningSubset view).isEmpty then
    VOut.consolePrint "No data for listening type comparison after filtering."
  else VOut.meltChart (meltRows view)

/-- The age-group view (lines 227-244).  The secondary slider refilters
`df_clean` by hours per day (line 228's refilter of `df` is immediately
overwritten by line 229).  On an empty refiltered view the code emits the UI
warning of line 244.  On a nonempty view it raises: `df_clean` was built at
line 35, before the `Age_Group` column was added to `df` at line 217, so
`filtered_df.groupby('Age_Group')` (line 233) raises `KeyError` (and `sns` at
line 239 is never imported). -/
def ageView (clean : List Record) (lo hi : ℚ) : VOut :=
  let fv := clean.filter (fun r => optBetween r.hoursPerDay lo hi)
  if fv.isEmpty then
    VOut.uiWarning "No data available for the selected hours range."
  else VOut.crash "KeyError: Age_Group"

/-- The BPM scatter chart (lines 112-131): rendered from the filtered view when
the tempo column exists, otherwise the `st.info` of line 166. -/
def bpmScatterView (hasBpm : Bool) (fv : List Record) : VOut :=
  if hasBpm then VOut.rowsChart fv
  else VOut.uiInfo "BPM data not found in this dataset."

/-- The BPM box-plot view (lines 134-163): binning inside `try`, with the
caught exception surfaced as the `st.warning` of line 163. -/
def bpmBoxView (hasBpm : Bool) (fv : List Record) : VOut :=
  if hasBpm then
    match bpmBins (fv.filterMap (fun r => r.bpm)) with
    | Except.ok p => VOut.binChart fv p.2
    | Except.error e => VOut.uiWarning ("Could not compute BPM bins: " ++ e)
  else VOut.uiInfo "BPM data not found in this dataset."

/-- Everything one top-to-bottom run of the script hands outward, in script
order. -/
structure SessionOut where
  primaryRows : List Record
  hoursScatter : VOut
  effectsHist : VOut
  bpmScatter : VOut
  bpmBox : VOut
  genre : VOut
  listening : VOut
  age : VOut
deriving DecidableEq, Repr

/-- One top-to-bottom run of the script for a given table and control state:
clean (line 35), filter by the primary controls (lines 67-73), render each view
in order, then refilter by the independent secondary hours control for the
age-group view (lines 227-231).  The tempo control and tempo charts exist
exactly when the tempo column does (`rg.bpmR.isSome`). -/
def runSession (df : List Record) (rg : Ranges) (secLo secHi : ℚ) :
    SessionOut :=
  let clean := cleanTable df
  let fv := primaryView clean rg
  let hasBpm := rg.bpmR.isSome
  { primaryRows := fv
    hoursScatter := VOut.rowsChart fv
    effectsHist := VOut.rowsChart fv
    bpmScatter := bpmScatterView hasBpm fv
    bpmBox := bpmBoxView hasBpm fv
    genre := genreView fv
    listening := listeningView fv
    age := ageView clean secLo secHi }

/-! ## Helper lemmas -/

theorem cellGe2_error_eq {c : Cell} {e : String}
    (h : cellGe2 c = Except.error e) : e = "TypeError" := by
  cases c with
  | na => simp [cellGe2] at h
  | num q => simp [cellGe2] at h
  | str s => simp [cellGe2] at h; exact h.symm

theorem hasRequired_parts {r : Record} (h : hasRequired r = true) :
    r.anxiety.isSome = true ∧ r.depression.isSome = true ∧
    r.insomnia.isSome = true ∧ r.ocd.isSome = true ∧
    r.hoursPerDay.isSome = true ∧ r.exploratory.isSome = true ∧
    r.musicEffects.isSome = true := by
  simp only [hasRequired, hasAllHealth, Bool.and_eq_true] at h
  obtain ⟨⟨⟨⟨⟨⟨ha, hd⟩, hin⟩, ho⟩, hh⟩, he⟩, hm⟩ := h
  exact ⟨ha, hd, hin, ho, hh, he, hm⟩

theorem mem_clean_hasRequired {df : List Record} {r : Record}
    (h : r ∈ cleanTable df) : hasRequired r = true :=
  (List.mem_filter.mp h).2

theorem activeGenreCount_error_of_unmapped {s : String} {cells : List Cell}
    (hs : freqMap s = none) (hmem : Cell.str s ∈ cells) :
    activeGenreCount cells = Except.error "TypeError" := by
  have key : exceptMapGe2 (cells.map replaceCell) = Except.error "TypeError" := by
    induction cells with
    | nil => simp at hmem
    | cons c tl ih =>
        rcases List.mem_cons.mp hmem with hc | htl
        · have hge : cellGe2 (replaceCell c) = Except.error "TypeError" := by
            rw [← hc]; simp [replaceCell, hs, cellGe2]
          cases htl2 : exceptMapGe2 (tl.map replaceCell) with
          | error e => simp [List.map_cons, exceptMapGe2, hge, htl2]
          | ok bs => simp [List.map_cons, exceptMapGe2, hge, htl2]
        · have htlerr := ih htl
          cases hge : cellGe2 (replaceCell c) with
          | error e =>
              have he := cellGe2_error_eq hge
              subst he
              simp [List.map_cons, exceptMapGe2, hge, htlerr]
          | ok b => simp [List.map_cons, exceptMapGe2, hge, htlerr]
  simp [activeGenreCount, key]

/-! ## Claim theorems -/

/-- C3: every record retained by the missing-field cleaning step has a defined
(non-missing) `Avg_health`, equal to the unweighted arithmetic mean of its four
health-column values (Anxiety, Depression, Insomnia, OCD). -/
theorem C3_avg_health_mean (df : List Record) (r : Record)
    (hmem : r ∈ cleanTable df) :
    (avgHealth r).isSome = true ∧
    avgHealth r = some ((r.anxiety.getD 0 + r.depression.getD 0 +
      r.insomnia.getD 0 + r.ocd.getD 0) / 4) := by
  obtain ⟨ha, hd, hin, ho, -, -, -⟩ :=
    hasRequired_parts (mem_clean_hasRequired hmem)
  obtain ⟨a, ha⟩ := Option.isSome_iff_exists.mp ha
  obtain ⟨d, hd⟩ := Option.isSome_iff_exists.mp hd
  obtain ⟨i, hin⟩ := Option.isSome_iff_exists.mp hin
  obtain ⟨o, ho⟩ := Option.isSome_iff_exists.mp ho
  have hv : healthVals r = [a, d, i, o] := by
    simp [healthVals, ha, hd, hin, ho]
  constructor
  · simp [avgHealth, hv]
  · simp [avgHealth, hv, ha, hd, hin, ho]
    ring_nf

/-- C3 witness: a concrete cleaned record with health scores 1, 2, 3, 6 has
`Avg_health` (1+2+3+6)/4 = 3. -/
theorem C3_avg_health_mean_witness :
    (avgHealth
      { hoursPerDay := some 2, age := some 30, bpm := some 120,
        favGenre := some "Rock", exploratory := some "Yes",
        musicEffects := some "Improve", freq := [],
        anxiety := some 1, depression := some 2, insomnia := some 3,
        ocd := some 6 : Record }).isSome = true ∧
    avgHealth
      { hoursPerDay := some 2, age := some 30, bpm := some 120,
        favGenre := some "Rock", exploratory := some "Yes",
        musicEffects := some "Improve", freq := [],
        anxiety := some 1, depression := some 2, insomnia := some 3,
        ocd := some 6 : Record } =
    some (((some (1:ℚ)).getD 0 + (some (2:ℚ)).getD 0 + (some (3:ℚ)).getD 0 +
      (some (6:ℚ)).getD 0) / 4) :=
  C3_avg_health_mean
    [{ hoursPerDay := some 2, age := some 30, bpm := some 120,
       favGenre := some "Rock", exploratory := some "Yes",
       musicEffects := some "Improve", freq := [],
       anxiety := some 1, depression := some 2, insomnia := some 3,
       ocd := some 6 : Record }] _ (by simp [cleanTable, hasRequired, hasAllHealth])

/-- C4: for every record whose active-genre count is defined, the derived
`listening_type` is `"Single"` iff the count is exactly 1, and `"Multiple"`
otherwise (including a count of 0); a genre is active when its encoded rank is
at least 2. -/
theorem C4_listening_type_iff (cells : List Cell) (n : ℕ)
    (h : activeGenreCount cells = Except.ok n) :
    ((activeListeningType cells = Except.ok "Single") ↔ n = 1) ∧
    (n ≠ 1 → activeListeningType cells = Except.ok "Multiple") := by
  refine ⟨⟨fun he => ?_, fun hn => ?_⟩, fun hn => ?_⟩
  · by_contra hn
    simp [activeListeningType, h, listeningType, hn] at he
  · simp [activeListeningType, h, listeningType, hn]
  · simp [activeListeningType, h, listeningType, hn]

/-- C4 witness: one genre-frequency cell reading "Sometimes" encodes to rank 2,
giving an active-genre count of 1 and listening type "Single". -/
theorem C4_listening_type_iff_witness :
    ((activeListeningType [Cell.str "Sometimes"] = Except.ok "Single") ↔
      (1 : ℕ) = 1) ∧
    ((1 : ℕ) ≠ 1 →
      activeListeningType [Cell.str "Sometimes"] = Except.ok "Multiple") :=
  C4_listening_type_iff [Cell.str "Sometimes"] 1 rfl

/-- C5 counterexample: the string "Often" is outside the four-level vocabulary.
`replace` leaves it unchanged (it does not become a missing value), and the
active-genre counting that consumes the encoded ranks then aborts with a
`TypeError` instead of treating it as missing -- unlike an actually missing
cell, which counts as inactive (`NaN >= 2` is `False`). -/
theorem C5_unmapped_counterexample :
    replaceCell (Cell.str "Often") = Cell.str "Often" ∧
    activeGenreCount [Cell.str "Often"] = Except.error "TypeError" ∧
    activeGenreCount [Cell.na] = Except.ok 0 :=
  ⟨rfl, rfl, rfl⟩

/-- C5 amended: a string outside the vocabulary is left unchanged by the
encoding step; it is coerced to a missing value only where
`pd.to_numeric(errors="coerce")` is applied downstream (the cleaned table's
genre columns feeding the variety count), while active-genre counting aborts
with a `TypeError` on any row set containing such a string rather than
treating it as missing. -/
theorem C5_unmapped_amended (s : String) (cells : List Cell)
    (h1 : freqMap s = none) (hmem : Cell.str s ∈ cells) :
    replaceCell (Cell.str s) = Cell.str s ∧
    toNumeric (replaceCell (Cell.str s)) = none ∧
    activeGenreCount cells = Except.error "TypeError" := by
  refine ⟨?_, ?_, activeGenreCount_error_of_unmapped h1 hmem⟩
  · simp [replaceCell, h1]
  · simp [replaceCell, h1, toNumeric]

/-- C5 amended witness: the concrete unmapped string "Often". -/
theorem C5_unmapped_amended_witness :
    replaceCell (Cell.str "Often") = Cell.str "Often" ∧
    toNumeric (replaceCell (Cell.str "Often")) = none ∧
    activeGenreCount [Cell.na, Cell.str "Often"] = Except.error "TypeError" :=
  C5_unmapped_amended "Often" [Cell.na, Cell.str "Often"] rfl (by simp)

/-- C9: age bucketing assigns every age in [0, 100] exactly one of the four
labels, via (0,25], (25,40], (40,60], (60,100] with the lowest bound included;
the boundary ages 25, 26, 60, 61 and 0 map as the claim states.  (`ageGroup`
is a function into `Option`, so at most one label is ever assigned.) -/
theorem C9_age_bucketing (a : ℚ) (h0 : 0 ≤ a) (h1 : a ≤ 100) :
    (ageGroup a).isSome = true ∧
    ((ageGroup a).getD "" ∈ (["18-25", "26-40", "41-60", "60+"] : List String)) ∧
    ageGroup 25 = some "18-25" ∧ ageGroup 26 = some "26-40" ∧
    ageGroup 60 = some "41-60" ∧ ageGroup 61 = some "60+" ∧
    ageGroup 0 = some "18-25" := by
  have hmain : (ageGroup a).isSome = true ∧
      ((ageGroup a).getD "" ∈ (["18-25", "26-40", "41-60", "60+"] : List String)) := by
    unfold ageGroup
    split_ifs with hc1 hc2 hc3 hc4
    · exact absurd h0 (not_le.mpr hc1)
    · exact ⟨rfl, by simp⟩
    · exact ⟨rfl, by simp⟩
    · exact ⟨rfl, by simp⟩
    · exact ⟨rfl, by simp⟩
  exact ⟨hmain.1, hmain.2, by norm_num [ageGroup], by norm_num [ageGroup],
    by norm_num [ageGroup], by norm_num [ageGroup], by norm_num [ageGroup]⟩

/-- C9 witness: age 33 falls in [0, 100] and gets assigned the bucket 26-40. -/
theorem C9_age_bucketing_witness :
    (ageGroup 33).isSome = true ∧
    ((ageGroup 33).getD "" ∈ (["18-25", "26-40", "41-60", "60+"] : List String)) ∧
    ageGroup 25 = some "18-25" ∧ ageGroup 26 = some "26-40" ∧
    ageGroup 60 = some "41-60" ∧ ageGroup 61 = some "60+" ∧
    ageGroup 0 = some "18-25" :=
  C9_age_bucketing 33 (by norm_num) (by norm_num)

/-- C6: the secondary (age-group) hours-per-day range control does not flow
into the primary filtered view or into the favourite-genre and listening-style
views computed from it: two sessions identical except for the secondary
control's value produce identical primary outputs.  In the script the primary
view (lines 67-73) and the genre/listening views (lines 168-214) are computed
before `hours_range` is rebound by the secondary slider (line 227). -/
theorem C6_secondary_filter_independence (df : List Record) (rg : Ranges)
    (sLo1 sHi1 sLo2 sHi2 : ℚ) :
    (runSession df rg sLo1 sHi1).primaryRows =
      (runSession df rg sLo2 sHi2).primaryRows ∧
    (runSession df rg sLo1 sHi1).genre = (runSession df rg sLo2 sHi2).genre ∧
    (runSession df rg sLo1 sHi1).listening =
      (runSession df rg sLo2 sHi2).listening :=
  ⟨rfl, rfl, rfl⟩

/-- A fully-populated survey record used in the empty-filter scenarios: 5
listening hours, all health scores 1, tempo 120. -/
def c7rec : Record :=
  { hoursPerDay := some 5, age := some 30, bpm := some 120,
    favGenre := some "Rock", exploratory := some "Yes",
    musicEffects := some "Improve", freq := [],
    anxiety := some 1, depression := some 1, insomnia := some 1,
    ocd := some 1 }

/-- Primary ranges whose hours-per-day interval [0, 1] excludes `c7rec`. -/
def c7rg : Ranges := ⟨0, 1, 0, 10, some (0, 1)⟩

/-- C7 counterexample: with every filter set to exclude all records, the
favourite-genre aggregation view emits nothing at all -- the `if` of line 169
has no `else` -- so it does not report "no data" to the consumer as the claim
requires. -/
theorem C7_empty_views_counterexample :
    (runSession [c7rec] c7rg 0 1).primaryRows = [] ∧
    (runSession [c7rec] c7rg 0 1).genre = VOut.silent := by
  constructor <;> rfl

/-- C7 amended: when the primary filtered view and the secondary
(age-group) filtered view are both empty, no exception propagates -- but only
the tempo-binning view and the age-group view surface a UI warning; the
favourite-genre view is silently skipped with no report at all, and the
listening-style view prints to the server console instead of reporting to the
consumer. -/
theorem C7_empty_views_amended (df : List Record) (rg : Ranges)
    (sLo sHi : ℚ) (p : ℚ × ℚ) (hbpm : rg.bpmR = some p)
    (hp : primaryView (cleanTable df) rg = [])
    (hs : (cleanTable df).filter
      (fun r => optBetween r.hoursPerDay sLo sHi) = []) :
    (runSession df rg sLo sHi).primaryRows = [] ∧
    (runSession df rg sLo sHi).hoursScatter = VOut.rowsChart [] ∧
    (runSession df rg sLo sHi).effectsHist = VOut.rowsChart [] ∧
    (runSession df rg sLo sHi).bpmScatter = VOut.rowsChart [] ∧
    (runSession df rg sLo sHi).bpmBox =
      VOut.uiWarning ("Could not compute BPM bins: " ++
        "quantile of empty sample") ∧
    (runSession df rg sLo sHi).genre = VOut.silent ∧
    (runSession df rg sLo sHi).listening =
      VOut.consolePrint "No data for listening type comparison after filtering." ∧
    (runSession df rg sLo sHi).age =
      VOut.uiWarning "No data available for the selected hours range." := by
  refine ⟨?_, ?_, ?_, ?_, ?_, ?_, ?_, ?_⟩ <;>
    simp [runSession, hp, hbpm, hs, bpmBoxView, bpmScatterView, bpmBins,
      genreView, listeningView, listeningSubset, ageView]

/-- C7 amended witness: the concrete one-record table and all-excluding
ranges. -/
theorem C7_empty_views_amended_witness :
    (runSession [c7rec] c7rg 0 1).primaryRows = [] ∧
    (runSession [c7rec] c7rg 0 1).hoursScatter = VOut.rowsChart [] ∧
    (runSession [c7rec] c7rg 0 1).effectsHist = VOut.rowsChart [] ∧
    (runSession [c7rec] c7rg 0 1).bpmScatter = VOut.rowsChart [] ∧
    (runSession [c7rec] c7rg 0 1).bpmBox =
      VOut.uiWarning ("Could not compute BPM bins: " ++
        "quantile of empty sample") ∧
    (runSession [c7rec] c7rg 0 1).genre = VOut.silent ∧
    (runSession [c7rec] c7rg 0 1).listening =
      VOut.consolePrint "No data for listening type comparison after filtering." ∧
    (runSession [c7rec] c7rg 0 1).age =
      VOut.uiWarning "No data available for the selected hours range." :=
  C7_empty_views_amended [c7rec] c7rg 0 1 (0, 1) rfl rfl rfl

/-- C8 amended: when BPM binning on the current filtered view actually raises
-- `np.quantile` on an empty view, or `pd.cut` rejecting colliding
integer-truncated ordered labels -- the caught exception surfaces as a
recoverable UI warning on the box-plot view alone, and every other view of the
same filter pass is still produced from the same filtered view.  (A view with
a single distinct tempo value is NOT such a failure: `pd.cut` then succeeds
silently with zero labels, see the counterexample.) -/
theorem C8_binning_failure_isolated (df : List Record) (rg : Ranges)
    (sLo sHi : ℚ) (p : ℚ × ℚ) (e : String) (hbpm : rg.bpmR = some p)
    (herr : bpmBins ((primaryView (cleanTable df) rg).filterMap
      (fun r => r.bpm)) = Except.error e) :
    (runSession df rg sLo sHi).bpmBox =
      VOut.uiWarning ("Could not compute BPM bins: " ++ e) ∧
    (runSession df rg sLo sHi).primaryRows =
      primaryView (cleanTable df) rg ∧
    (runSession df rg sLo sHi).hoursScatter =
      VOut.rowsChart (primaryView (cleanTable df) rg) ∧
    (runSession df rg sLo sHi).effectsHist =
      VOut.rowsChart (primaryView (cleanTable df) rg) ∧
    (runSession df rg sLo sHi).bpmScatter =
      VOut.rowsChart (primaryView (cleanTable df) rg) ∧
    (runSession df rg sLo sHi).genre =
      genreView (primaryView (cleanTable df) rg) ∧
    (runSession df rg sLo sHi).listening =
      listeningView (primaryView (cleanTable df) rg) ∧
    (runSession df rg sLo sHi).age = ageView (cleanTable df) sLo sHi := by
  refine ⟨?_, rfl, rfl, rfl, ?_, rfl, rfl, rfl⟩ <;>
    simp [runSession, bpmBoxView, bpmScatterView, hbpm, herr]

theorem quantile_single (v q : ℚ) : quantile [v] q = v := by
  simp [quantile]

theorem bpmBins_single (v : ℚ) (hv : v ≤ 250) :
    bpmBins [v] = Except.ok ([v], []) := by
  have hs : sortQ [v] = [v] := rfl
  have hmin : min v 250 = v := min_eq_left hv
  simp [bpmBins, rawEdges, linspace6, hs, quantile_single, hmin, npUnique,
    sortQ, List.insertionSort, List.orderedInsert, dedupSorted, mkLabels]

/-- C8 counterexample: a filtered view with a single distinct tempo value
(one record, tempo 120).  `np.unique` leaves one edge; `pd.cut` with one break
and an empty label list succeeds silently, so the box-plot view renders (with
no record assigned any bin) and NO warning is reported -- contradicting the
claim's "fewer than 2 distinct tempo values" failure case. -/
theorem C8_single_tempo_counterexample :
    (runSession [c7rec] ⟨0, 10, 0, 10, some (0, 250)⟩ 0 1).bpmBox =
      VOut.binChart [c7rec] [] ∧
    bpmCut [120] [] 120 = none := by
  have havg : avgHealth c7rec = some 1 := by
    simp [avgHealth, healthVals, c7rec, List.filterMap_cons]
    norm_num
  have h5 : c7rec.hoursPerDay = some 5 := rfl
  have hb : c7rec.bpm = some 120 := rfl
  have hfv : primaryView (cleanTable [c7rec]) ⟨0, 10, 0, 10, some (0, 250)⟩ =
      [c7rec] := by
    rw [show cleanTable [c7rec] = [c7rec] from rfl]
    norm_num [primaryView, optBetween, between, havg, h5, hb]
  have hbins : bpmBins (([c7rec] : List Record).filterMap (fun r => r.bpm)) =
      Except.ok ([120], []) := by
    rw [show ([c7rec] : List Record).filterMap (fun r => r.bpm) = [120]
      from rfl]
    exact bpmBins_single 120 (by norm_num)
  constructor
  · simp [runSession, hfv, bpmBoxView, hbins]
  · rfl

/-- A cleaned record with tempo 100. -/
def c8a : Record :=
  { hoursPerDay := some 2, age := some 30, bpm := some 100,
    favGenre := some "Rock", exploratory := some "Yes",
    musicEffects := some "Improve", freq := [],
    anxiety := some 1, depression := some 1, insomnia := some 1,
    ocd := some 1 }

/-- A cleaned record with tempo 101. -/
def c8b : Record :=
  { hoursPerDay := some 3, age := some 30, bpm := some 101,
    favGenre := some "Rock", exploratory := some "Yes",
    musicEffects := some "Improve", freq := [],
    anxiety := some 1, depression := some 1, insomnia := some 1,
    ocd := some 1 }

theorem listMin_eq_none {l : List ℚ} (h : listMin l = none) : l = [] := by
  cases l with
  | nil => rfl
  | cons y tl => cases htl : listMin tl <;> simp [listMin, htl] at h

theorem listMax_eq_none {l : List ℚ} (h : listMax l = none) : l = [] := by
  cases l with
  | nil => rfl
  | cons y tl => cases htl : listMax tl <;> simp [listMax, htl] at h

theorem listMin_le {l : List ℚ} {m : ℚ} (hm : listMin l = some m) :
    ∀ x ∈ l, m ≤ x := by
  induction l generalizing m with
  | nil => simp [listMin] at hm
  | cons y tl ih =>
      intro x hx
      rcases List.mem_cons.mp hx with hxy | hxtl
      · subst hxy
        cases htl : listMin tl with
        | none => simp [listMin, htl] at hm; simp [hm]
        | some m2 =>
            simp [listMin, htl] at hm
            rw [← hm]; exact min_le_left x m2
      · cases htl : listMin tl with
        | none => rw [listMin_eq_none htl] at hxtl; simp at hxtl
        | some m2 =>
            simp [listMin, htl] at hm
            calc m ≤ m2 := by rw [← hm]; exact min_le_right y m2
              _ ≤ x := ih htl x hxtl

theorem listMax_ge {l : List ℚ} {m : ℚ} (hm : listMax l = some m) :
    ∀ x ∈ l, x ≤ m := by
  induction l generalizing m with
  | nil => simp [listMax] at hm
  | cons y tl ih =>
      intro x hx
      rcases List.mem_cons.mp hx with hxy | hxtl
      · subst hxy
        cases htl : listMax tl with
        | none => simp [listMax, htl] at hm; simp [hm]
        | some m2 =>
            simp [listMax, htl] at hm
            rw [← hm]; exact le_max_left x m2
      · cases htl : listMax tl with
        | none => rw [listMax_eq_none htl] at hxtl; simp at hxtl
        | some m2 =>
            simp [listMax, htl] at hm
            calc x ≤ m2 := ih htl x hxtl
              _ ≤ m := by rw [← hm]; exact le_max_right y m2

theorem mem_colBpm {t : List Record} {r : Record} {b : ℚ}
    (hmem : r ∈ t) (hb : r.bpm = some b) : b ∈ colBpm t :=
  List.mem_filterMap.mpr ⟨r, hmem, hb⟩

/-- C10: when the tempo column exists and the cleaned table contains a tempo
value above 250, the BPM slider's upper bound `int(min(max, 250))` equals
`min(observed max, 250) = 250` exactly, and any record with tempo above 250 is
excluded from the filtered view under every control setting the slider admits
(any upper value `hi` at most the slider bound). -/
theorem C10_bpm_cap (df : List Record) (r : Record) (b M : ℚ)
    (lo hi hLo hHi aLo aHi : ℚ)
    (hmem : r ∈ cleanTable df) (hb : r.bpm = some b) (h250 : 250 < b)
    (hM : listMax (colBpm (cleanTable df)) = some M)
    (hhi : hi ≤ ((pyInt (min M 250) : ℤ) : ℚ)) :
    bpmSliderMax (cleanTable df) = some (pyInt (min M 250)) ∧
    ((pyInt (min M 250) : ℤ) : ℚ) = min M 250 ∧
    ((pyInt (min M 250) : ℤ) : ℚ) ≤ 250 ∧
    r ∉ primaryView (cleanTable df) ⟨hLo, hHi, aLo, aHi, some (lo, hi)⟩ := by
  have hbM : b ≤ M := listMax_ge hM b (mem_colBpm hmem hb)
  have h250M : (250 : ℚ) ≤ M := le_of_lt (lt_of_lt_of_le h250 hbM)
  have hmin : min M 250 = 250 := min_eq_right h250M
  have hpy : pyInt (min M 250) = 250 := by
    rw [hmin]; norm_num [pyInt]
  refine ⟨by simp [bpmSliderMax, hM], by rw [hpy, hmin]; norm_num,
    by rw [hpy]; norm_num, ?_⟩
  intro hin
  have hpred := (List.mem_filter.mp hin).2
  simp only [hb, optBetween, between, Bool.and_eq_true, decide_eq_true_eq]
    at hpred
  have : b ≤ 250 := le_trans hpred.2 (by rw [hpy] at hhi; exact_mod_cast hhi)
  exact absurd this (not_le.mpr h250)

/-- A cleaned record with tempo 260, above the 250 cap. -/
def c10rec : Record :=
  { hoursPerDay := some 2, age := some 30, bpm := some 260,
    favGenre := some "Rock", exploratory := some "Yes",
    musicEffects := some "Improve", freq := [],
    anxiety := some 1, depression := some 1, insomnia := some 1,
    ocd := some 1 }

/-- C10 witness: a cleaned one-record table with tempo 260; the slider bound is
250 and the record is excluded at the widest admissible setting (0, 250). -/
theorem C10_bpm_cap_witness :
    bpmSliderMax (cleanTable [c10rec]) = some (pyInt (min 260 250)) ∧
    ((pyInt (min (260:ℚ) 250) : ℤ) : ℚ) = min 260 250 ∧
    ((pyInt (min (260:ℚ) 250) : ℤ) : ℚ) ≤ 250 ∧
    c10rec ∉ primaryView (cleanTable [c10rec]) ⟨0, 10, 0, 10, some (0, 250)⟩ :=
  C10_bpm_cap [c10rec] c10rec 260 260 0 250 0 10 0 10
    (by simp [cleanTable, hasRequired, hasAllHealth, c10rec]) rfl
    (by norm_num) rfl
    (by norm_num [pyInt, min_eq_right (by norm_num : (250:ℚ) ≤ 260)])

theorem avgHealth_isSome_of_required {r : Record} (h : hasRequired r = true) :
    ∃ a, avgHealth r = some a := by
  obtain ⟨ha, hd, hin, ho, -, -, -⟩ := hasRequired_parts h
  obtain ⟨a, ha⟩ := Option.isSome_iff_exists.mp ha
  obtain ⟨d, hd⟩ := Option.isSome_iff_exists.mp hd
  obtain ⟨i, hin⟩ := Option.isSome_iff_exists.mp hin
  obtain ⟨o, ho⟩ := Option.isSome_iff_exists.mp ho
  refine ⟨(a + (d + (i + (o + 0)))) / 4, ?_⟩
  simp [avgHealth, healthVals, ha, hd, hin, ho]

/-- C1 amended: with every range control holding the exact observed min/max of
its column and every cleaned record carrying a present tempo value, the filter
engine reproduces the cleaned table row for row (with or without the tempo
control).  The code's actual full-range defaults differ: the hours and tempo
bounds are `int()`-truncated and the tempo bound is capped at 250 (lines
51-64), so records with tempo above 250 -- or above/below an
integer-truncated bound -- are excluded even at full range (see the
counterexample). -/
theorem C1_full_range_amended (df : List Record) (hLo hHi aLo aHi bLo bHi : ℚ)
    (hH1 : listMin (colHours (cleanTable df)) = some hLo)
    (hH2 : listMax (colHours (cleanTable df)) = some hHi)
    (hA1 : listMin (colAvg (cleanTable df)) = some aLo)
    (hA2 : listMax (colAvg (cleanTable df)) = some aHi)
    (hB1 : listMin (colBpm (cleanTable df)) = some bLo)
    (hB2 : listMax (colBpm (cleanTable df)) = some bHi)
    (hbp : ∀ r ∈ cleanTable df, r.bpm.isSome = true) :
    primaryView (cleanTable df) ⟨hLo, hHi, aLo, aHi, some (bLo, bHi)⟩ =
      cleanTable df ∧
    primaryView (cleanTable df) ⟨hLo, hHi, aLo, aHi, none⟩ =
      cleanTable df := by
  have hbase : ∀ r ∈ cleanTable df,
      (optBetween r.hoursPerDay hLo hHi &&
        optBetween (avgHealth r) aLo aHi) = true := by
    intro r hr
    obtain ⟨-, -, -, -, hh, -, -⟩ :=
      hasRequired_parts (mem_clean_hasRequired hr)
    obtain ⟨v, hv⟩ := Option.isSome_iff_exists.mp hh
    obtain ⟨a, ha⟩ := avgHealth_isSome_of_required (mem_clean_hasRequired hr)
    have hv1 := listMin_le hH1 v (List.mem_filterMap.mpr ⟨r, hr, hv⟩)
    have hv2 := listMax_ge hH2 v (List.mem_filterMap.mpr ⟨r, hr, hv⟩)
    have ha1 := listMin_le hA1 a (List.mem_filterMap.mpr ⟨r, hr, ha⟩)
    have ha2 := listMax_ge hA2 a (List.mem_filterMap.mpr ⟨r, hr, ha⟩)
    simp [optBetween, hv, ha, between, hv1, hv2, ha1, ha2]
  have hbpmf : ∀ r ∈ cleanTable df, optBetween r.bpm bLo bHi = true := by
    intro r hr
    obtain ⟨b, hb⟩ := Option.isSome_iff_exists.mp (hbp r hr)
    have h1 := listMin_le hB1 b (mem_colBpm hr hb)
    have h2 := listMax_ge hB2 b (mem_colBpm hr hb)
    simp [optBetween, hb, between, h1, h2]
  constructor
  · simp only [primaryView]
    rw [List.filter_eq_self.mpr hbase]
    exact List.filter_eq_self.mpr hbpmf
  · simp only [primaryView]
    exact List.filter_eq_self.mpr hbase

/-- C1 amended witness: a one-record cleaned table with hours 5, average health
1, tempo 120; the exact observed bounds reproduce the table. -/
theorem C1_full_range_amended_witness :
    primaryView (cleanTable [c7rec]) ⟨5, 5, 1, 1, some (120, 120)⟩ =
      cleanTable [c7rec] ∧
    primaryView (cleanTable [c7rec]) ⟨5, 5, 1, 1, none⟩ =
      cleanTable [c7rec] := by
  have hclean : cleanTable [c7rec] = [c7rec] := rfl
  have havg : avgHealth c7rec = some 1 := by
    simp [avgHealth, healthVals, c7rec, List.filterMap_cons]
    norm_num
  have hA : colAvg (cleanTable [c7rec]) = [1] := by
    simp [colAvg, hclean, List.filterMap_cons, havg]
  exact C1_full_range_amended [c7rec] 5 5 1 1 120 120 rfl rfl
    (by rw [hA]; rfl) (by rw [hA]; rfl) rfl rfl
    (by intro r hr; rw [hclean] at hr; simp at hr; subst hr; rfl)

/-- C1 counterexample: a cleaned two-record table with tempo values 120 and
260.  The code's full-range control defaults (hours `int(min)`..`int(max)`,
health exact min..max, tempo `int(min)`..`int(min(max, 250))`) exclude the
260-tempo record, so the full-range filtered view is NOT the cleaned table. -/
theorem C1_full_range_counterexample :
    cleanTable [c7rec, c10rec] = [c7rec, c10rec] ∧
    sessionFullRange [c7rec, c10rec] true = some [c7rec] ∧
    sessionFullRange [c7rec, c10rec] true ≠
      some (cleanTable [c7rec, c10rec]) := by
  have hclean : cleanTable [c7rec, c10rec] = [c7rec, c10rec] := rfl
  have havg1 : avgHealth c7rec = some 1 := by
    simp [avgHealth, healthVals, c7rec, List.filterMap_cons]
    norm_num
  have havg2 : avgHealth c10rec = some 1 := by
    simp [avgHealth, healthVals, c10rec, List.filterMap_cons]
    norm_num
  have hH : colHours (cleanTable [c7rec, c10rec]) = [5, 2] := rfl
  have hA : colAvg (cleanTable [c7rec, c10rec]) = [1, 1] := by
    simp [colAvg, hclean, List.filterMap_cons, havg1, havg2]
  have hB : colBpm (cleanTable [c7rec, c10rec]) = [120, 260] := rfl
  have hHmin : listMin [(5:ℚ), 2] = some 2 := by
    norm_num [listMin]
  have hHmax : listMax [(5:ℚ), 2] = some 5 := by
    norm_num [listMax]
  have hAmin : listMin [(1:ℚ), 1] = some 1 := by
    norm_num [listMin]
  have hAmax : listMax [(1:ℚ), 1] = some 1 := by
    norm_num [listMax]
  have hBmin : listMin [(120:ℚ), 260] = some 120 := by
    norm_num [listMin]
  have hBmax : listMax [(120:ℚ), 260] = some 260 := by
    norm_num [listMax]
  have hview : primaryView (cleanTable [c7rec, c10rec])
      ⟨((pyInt 2 : ℤ) : ℚ), ((pyInt 5 : ℤ) : ℚ), 1, 1,
        some (((pyInt 120 : ℤ) : ℚ), ((pyInt (min 260 250) : ℤ) : ℚ))⟩ =
      [c7rec] := by
    have hp2 : pyInt 2 = 2 := by norm_num [pyInt]
    have hp5 : pyInt 5 = 5 := by norm_num [pyInt]
    have hp120 : pyInt 120 = 120 := by norm_num [pyInt]
    have hp250 : pyInt (min (260:ℚ) 250) = 250 := by
      rw [min_eq_right (by norm_num : (250:ℚ) ≤ 260)]
      norm_num [pyInt]
    rw [hclean, hp2, hp5, hp120, hp250]
    have hr7h : c7rec.hoursPerDay = some 5 := rfl
    have hr7b : c7rec.bpm = some 120 := rfl
    have hr10h : c10rec.hoursPerDay = some 2 := rfl
    have hr10b : c10rec.bpm = some 260 := rfl
    have q1a : optBetween c7rec.hoursPerDay 2 5 = true := by
      rw [hr7h]; norm_num [optBetween, between]
    have q2a : optBetween (avgHealth c7rec) 1 1 = true := by
      rw [havg1]; norm_num [optBetween, between]
    have q1b : optBetween c10rec.hoursPerDay 2 5 = true := by
      rw [hr10h]; norm_num [optBetween, between]
    have q2b : optBetween (avgHealth c10rec) 1 1 = true := by
      rw [havg2]; norm_num [optBetween, between]
    have p2a : optBetween c7rec.bpm 120 250 = true := by
      rw [hr7b]; norm_num [optBetween, between]
    have p2b : optBetween c10rec.bpm 120 250 = false := by
      rw [hr10b]; norm_num [optBetween, between]
    simp only [primaryView]
    simp [List.filter_cons, q1a, q2a, q1b, q2b, p2a, p2b]
  have hmain : sessionFullRange [c7rec, c10rec] true = some [c7rec] := by
    rw [sessionFullRange]
    rw [hH, hA, hB, hHmin, hHmax, hAmin, hAmax, hBmin, hBmax]
    simp only [if_true]
    rw [hview]
  refine ⟨hclean, hmain, ?_⟩
  rw [hmain, hclean]
  intro hcontra
  simp at hcontra

/-- The last element of a list of rationals, 0 for the empty list. -/
def lastD : List ℚ → ℚ
  | [] => 0
  | [x] => x
  | _ :: y :: tl => lastD (y :: tl)

theorem lastD_cons {x : ℚ} {l : List ℚ} (h : l ≠ []) :
    lastD (x :: l) = lastD l := by
  cases l with
  | nil => exact absurd rfl h
  | cons y tl => rfl

theorem lastD_mem {l : List ℚ} (h : l ≠ []) : lastD l ∈ l := by
  induction l with
  | nil => exact absurd rfl h
  | cons x tl ih =>
      cases tl with
      | nil => simp [lastD]
      | cons y tl2 =>
          rw [lastD_cons (by simp)]
          exact List.mem_cons_of_mem x (ih (by simp))

theorem sorted_le_lastD {l : List ℚ}
    (hs : List.Sorted (fun a b => a ≤ b) l) {x : ℚ} (hx : x ∈ l) :
    x ≤ lastD l := by
  induction l with
  | nil => simp at hx
  | cons a tl ih =>
      rcases List.mem_cons.mp hx with h | h
      · subst h
        cases tl with
        | nil => simp [lastD]
        | cons y tl2 =>
            rw [lastD_cons (by simp)]
            exact List.rel_of_sorted_cons hs _ (lastD_mem (by simp))
      · cases tl with
        | nil => simp at h
        | cons y tl2 =>
            rw [lastD_cons (by simp)]
            exact ih hs.of_cons h

theorem sorted_headD_le {l : List ℚ}
    (hs : List.Sorted (fun a b => a ≤ b) l) {x : ℚ} (hx : x ∈ l) :
    l.getD 0 0 ≤ x := by
  cases l with
  | nil => simp at hx
  | cons a tl =>
      rcases List.mem_cons.mp hx with h | h
      · subst h; simp
      · simpa using List.rel_of_sorted_cons hs x h

theorem lastD_eq_getD {l : List ℚ} (h : l ≠ []) :
    lastD l = l.getD (l.length - 1) 0 := by
  induction l with
  | nil => exact absurd rfl h
  | cons x tl ih =>
      cases tl with
      | nil => rfl
      | cons y tl2 =>
          rw [lastD_cons (by simp), ih (by simp)]
          simp [List.getD]

theorem dedupSorted_ne_nil {l : List ℚ} (h : l ≠ []) : dedupSorted l ≠ [] := by
  induction l with
  | nil => exact absurd rfl h
  | cons x tl ih =>
      cases tl with
      | nil => simp [dedupSorted]
      | cons y tl2 =>
          by_cases hxy : x = y
          · simpa [dedupSorted, hxy] using ih (by simp)
          · simp [dedupSorted, hxy]

theorem dedupSorted_headD (l : List ℚ) :
    (dedupSorted l).getD 0 0 = l.getD 0 0 := by
  induction l with
  | nil => rfl
  | cons x tl ih =>
      cases tl with
      | nil => rfl
      | cons y tl2 =>
          by_cases hxy : x = y
          · rw [show dedupSorted (x :: y :: tl2) = dedupSorted (y :: tl2) by
              simp [dedupSorted, hxy]]
            rw [ih]
            simp [List.getD, hxy]
          · rw [show dedupSorted (x :: y :: tl2) =
              x :: dedupSorted (y :: tl2) by simp [dedupSorted, hxy]]
            simp [List.getD]

theorem dedupSorted_lastD (l : List ℚ) : lastD (dedupSorted l) = lastD l := by
  induction l with
  | nil => rfl
  | cons x tl ih =>
      cases tl with
      | nil => rfl
      | cons y tl2 =>
          by_cases hxy : x = y
          · rw [show dedupSorted (x :: y :: tl2) = dedupSorted (y :: tl2) by
              simp [dedupSorted, hxy]]
            rw [ih]
            exact (lastD_cons (by simp)).symm
          · rw [show dedupSorted (x :: y :: tl2) =
              x :: dedupSorted (y :: tl2) by simp [dedupSorted, hxy]]
            rw [lastD_cons (dedupSorted_ne_nil (by simp)), ih]
            exact (lastD_cons (by simp)).symm

theorem dedupSorted_subset {l : List ℚ} {x : ℚ} (h : x ∈ dedupSorted l) :
    x ∈ l := by
  induction l with
  | nil => simp [dedupSorted] at h
  | cons a tl ih =>
      cases tl with
      | nil => simpa [dedupSorted] using h
      | cons y tl2 =>
          by_cases hay : a = y
          · rw [show dedupSorted (a :: y :: tl2) = dedupSorted (y :: tl2) by
              simp [dedupSorted, hay]] at h
            exact List.mem_cons_of_mem a (ih h)
          · rw [show dedupSorted (a :: y :: tl2) =
              a :: dedupSorted (y :: tl2) by simp [dedupSorted, hay]] at h
            rcases List.mem_cons.mp h with h2 | h2
            · exact h2 ▸ List.mem_cons_self a _
            · exact List.mem_cons_of_mem a (ih h2)

theorem dedupSorted_length_le (l : List ℚ) :
    (dedupSorted l).length ≤ l.length := by
  induction l with
  | nil => simp [dedupSorted]
  | cons x tl ih =>
      cases tl with
      | nil => simp [dedupSorted]
      | cons y tl2 =>
          by_cases hxy : x = y
          · rw [show dedupSorted (x :: y :: tl2) = dedupSorted (y :: tl2) by
              simp [dedupSorted, hxy]]
            exact le_trans ih (by simp)
          · rw [show dedupSorted (x :: y :: tl2) =
              x :: dedupSorted (y :: tl2) by simp [dedupSorted, hxy]]
            simpa using ih

theorem dedupSorted_chain' {l : List ℚ}
    (hs : List.Sorted (fun a b => a ≤ b) l) :
    List.Chain' (fun a b => a < b) (dedupSorted l) := by
  induction l with
  | nil => simp [dedupSorted]
  | cons a tl ih =>
      cases tl with
      | nil => simp [dedupSorted]
      | cons y tl2 =>
          by_cases hay : a = y
          · rw [show dedupSorted (a :: y :: tl2) = dedupSorted (y :: tl2) by
              simp [dedupSorted, hay]]
            exact ih hs.of_cons
          · rw [show dedupSorted (a :: y :: tl2) =
              a :: dedupSorted (y :: tl2) by simp [dedupSorted, hay]]
            have hlt : a < y :=
              lt_of_le_of_ne
                (List.rel_of_sorted_cons hs y (List.mem_cons_self y tl2)) hay
            have hchain := ih hs.of_cons
            cases hdd : dedupSorted (y :: tl2) with
            | nil => exact absurd hdd (dedupSorted_ne_nil (by simp))
            | cons z rest =>
                have hz : z = y := by
                  have := dedupSorted_headD (y :: tl2)
                  rw [hdd] at this
                  simpa [List.getD] using this
                rw [hdd] at hchain
                exact List.chain'_cons.mpr ⟨hz ▸ hlt, hchain⟩

theorem sortQ_sorted (l : List ℚ) :
    List.Sorted (fun a b => a ≤ b) (sortQ l) :=
  List.sorted_insertionSort _ l

theorem sortQ_perm (l : List ℚ) : (sortQ l).Perm l :=
  List.perm_insertionSort _ l

theorem mem_sortQ {l : List ℚ} {x : ℚ} : x ∈ sortQ l ↔ x ∈ l :=
  (sortQ_perm l).mem_iff

theorem sortQ_ne_nil {l : List ℚ} (h : l ≠ []) : sortQ l ≠ [] := by
  intro hc
  apply h
  have hlen := (sortQ_perm l).length_eq
  rw [hc] at hlen
  exact List.length_eq_zero.mp hlen.symm

theorem quantile_zero (s : List ℚ) : quantile s 0 = s.getD 0 0 := by
  simp [quantile]

theorem quantile_one {s : List ℚ} (hs : s ≠ []) : quantile s 1 = lastD s := by
  have hn : 1 ≤ s.length := List.length_pos.mpr hs
  have hfl : ⌊(1 : ℚ) * ((s.length : ℚ) - 1)⌋ = (s.length : ℤ) - 1 := by
    rw [one_mul,
      show ((s.length : ℚ) - 1) = (((s.length : ℤ) - 1 : ℤ) : ℚ) by push_cast; ring]
    exact Int.floor_intCast _
  have htn : (⌊(1 : ℚ) * ((s.length : ℚ) - 1)⌋).toNat = s.length - 1 := by
    rw [hfl]; omega
  have hcast : ((s.length - 1 : ℕ) : ℚ) = (s.length : ℚ) - 1 := by
    push_cast [Nat.cast_sub hn]; ring
  simp only [quantile, htn]
  rw [hcast,
    show (1 : ℚ) * ((s.length : ℚ) - 1) - ((s.length : ℚ) - 1) = 0 by ring,
    zero_mul, add_zero]
  exact (lastD_eq_getD hs).symm

theorem binIndexAux_cover {v : ℚ} :
    ∀ (tl : List ℚ) (prev : ℚ) (i : ℕ), prev < v → v ≤ lastD (prev :: tl) →
      ∃ j, binIndexAux prev i v tl = some j ∧ j < i + tl.length := by
  intro tl
  induction tl with
  | nil =>
      intro prev i h1 h2
      rw [show lastD [prev] = prev from rfl] at h2
      exact absurd h1 (not_lt.mpr h2)
  | cons e tl2 ih =>
      intro prev i h1 h2
      by_cases hc : prev < v ∧ v ≤ e
      · exact ⟨i, by simp [binIndexAux, hc], by simp⟩
      · have he : e < v := by
          rcases not_and_or.mp hc with h | h
          · exact absurd h1 h
          · exact not_le.mp h
        have h2' : v ≤ lastD (e :: tl2) := by
          rw [lastD_cons (by simp)] at h2; exact h2
        obtain ⟨j, hj, hjl⟩ := ih e (i + 1) he h2'
        refine ⟨j, by simp [binIndexAux, hc, hj], ?_⟩
        simp only [List.length_cons]
        omega

theorem binIndex_cover {edges : List ℚ} {v : ℚ} (h2 : 2 ≤ edges.length)
    (hlo : edges.getD 0 0 ≤ v) (hhi : v ≤ lastD edges) :
    ∃ j, binIndex edges v = some j ∧ j + 1 < edges.length := by
  cases edges with
  | nil => simp at h2
  | cons e0 tl =>
      cases tl with
      | nil => simp at h2
      | cons e1 tl2 =>
          by_cases hc : e0 ≤ v ∧ v ≤ e1
          · exact ⟨0, by simp [binIndex, hc], by simp⟩
          · have h1 : e1 < v := by
              rcases not_and_or.mp hc with h | h
              · exact absurd (by simpa [List.getD] using hlo) h
              · exact not_le.mp h
            have hhi' : v ≤ lastD (e1 :: tl2) := by
              rw [lastD_cons (by simp)] at hhi; exact hhi
            obtain ⟨j, hj, hjl⟩ := binIndexAux_cover tl2 e1 1 h1 hhi'
            refine ⟨j, by simp [binIndex, hc, hj], ?_⟩
            simp only [List.length_cons]
            omega

theorem mkLabels_length : ∀ l : List ℚ, (mkLabels l).length = l.length - 1
  | [] => rfl
  | [_] => rfl
  | e1 :: e2 :: tl => by
      rw [show mkLabels (e1 :: e2 :: tl) =
        (toString (pyInt e1) ++ "-" ++ toString (pyInt e2)) ::
          mkLabels (e2 :: tl) from rfl]
      simp only [List.length_cons, mkLabels_length (e2 :: tl)]
      omega

theorem getElem?_isSome_of_lt {α : Type} {l : List α} {i : ℕ}
    (h : i < l.length) : (l[i]?).isSome = true := by
  rw [List.getElem?_eq_getElem h]; rfl

theorem bpmBins_expand {data : List ℚ} (hd : data ≠ []) :
    bpmBins data =
      if (mkLabels (npUnique (rawEdges data))).Nodup then
        Except.ok (npUnique (rawEdges data),
          mkLabels (npUnique (rawEdges data)))
      else Except.error "labels must be unique if ordered=True" := by
  simp only [bpmBins, if_neg hd]

theorem bpmBins_ok_inv {data edges : List ℚ} {labels : List String}
    (hok : bpmBins data = Except.ok (edges, labels)) :
    data ≠ [] ∧ edges = npUnique (rawEdges data) ∧
    labels = mkLabels edges ∧ labels.Nodup := by
  by_cases hd : data = []
  · simp [bpmBins, hd] at hok
  · rw [bpmBins_expand hd] at hok
    by_cases hnd : (mkLabels (npUnique (rawEdges data))).Nodup
    · rw [if_pos hnd] at hok
      simp only [Except.ok.injEq, Prod.mk.injEq] at hok
      refine ⟨hd, hok.1.symm, ?_, ?_⟩
      · rw [← hok.1, ← hok.2]
      · rw [← hok.2]; exact hnd
    · simp [hnd] at hok

/-- C2 amended: the binning step clips the computed bin EDGES at 250 (the
tempo values themselves are never clamped, and the underlying records are not
mutated).  On any tempo sample whose values are all at most 250 -- which holds
for every filtered view the app can produce, because the tempo control is
capped at 250 -- a successful binning yields at most 5 bins, strictly
increasing (hence monotonically non-decreasing) edges, every edge at most 250;
and provided at least two distinct edges remain, every sample value is
assigned exactly one bin label (`bpmCut` is `Option`-valued, so at most one
label is ever assigned).  With a single distinct edge -- a single distinct
tempo value -- `pd.cut` succeeds silently with zero labels and no value is
assigned a bin. -/
theorem C2_binning_amended (data edges : List ℚ) (labels : List String)
    (h250 : ∀ v ∈ data, v ≤ 250)
    (hok : bpmBins data = Except.ok (edges, labels)) :
    labels.length ≤ 5 ∧
    List.Chain' (fun a b => a < b) edges ∧
    (∀ e ∈ edges, e ≤ 250) ∧
    (2 ≤ edges.length → ∀ v ∈ data, (bpmCut edges labels v).isSome = true) := by
  obtain ⟨hd, hE, hL, -⟩ := bpmBins_ok_inv hok
  have hraw_len : (rawEdges data).length = 6 := by
    simp [rawEdges, linspace6]
  have hlab : labels.length = edges.length - 1 := by
    rw [hL]; exact mkLabels_length edges
  have hlen6 : edges.length ≤ 6 := by
    rw [hE, npUnique]
    calc (dedupSorted (sortQ (rawEdges data))).length
        ≤ (sortQ (rawEdges data)).length := dedupSorted_length_le _
      _ = (rawEdges data).length := (sortQ_perm _).length_eq
      _ = 6 := hraw_len
  refine ⟨by omega, ?_, ?_, ?_⟩
  · rw [hE, npUnique]
    exact dedupSorted_chain' (sortQ_sorted _)
  · intro e he
    rw [hE, npUnique] at he
    have hmem := mem_sortQ.mp (dedupSorted_subset he)
    rw [rawEdges] at hmem
    obtain ⟨x, -, hx⟩ := List.mem_map.mp hmem
    rw [← hx]
    exact min_le_right x 250
  · intro h2 v hv
    have hsne : sortQ data ≠ [] := sortQ_ne_nil hd
    have hvs : v ∈ sortQ data := mem_sortQ.mpr hv
    have hmin_le : (sortQ data).getD 0 0 ≤ v :=
      sorted_headD_le (sortQ_sorted data) hvs
    have hle_max : v ≤ lastD (sortQ data) :=
      sorted_le_lastD (sortQ_sorted data) hvs
    have hv250 : v ≤ 250 := h250 v hv
    have h0mem : min ((sortQ data).getD 0 0) 250 ∈ rawEdges data := by
      rw [rawEdges]
      refine List.mem_map.mpr ⟨quantile (sortQ data) 0, ?_, ?_⟩
      · exact List.mem_map.mpr ⟨0, by simp [linspace6], rfl⟩
      · rw [quantile_zero]
    have h1mem : min (lastD (sortQ data)) 250 ∈ rawEdges data := by
      rw [rawEdges]
      refine List.mem_map.mpr ⟨quantile (sortQ data) 1, ?_, ?_⟩
      · exact List.mem_map.mpr ⟨1, by simp [linspace6], rfl⟩
      · rw [quantile_one hsne]
    have hhead : edges.getD 0 0 ≤ v := by
      rw [hE, npUnique, dedupSorted_headD]
      calc (sortQ (rawEdges data)).getD 0 0
          ≤ min ((sortQ data).getD 0 0) 250 :=
            sorted_headD_le (sortQ_sorted _) (mem_sortQ.mpr h0mem)
        _ ≤ (sortQ data).getD 0 0 := min_le_left _ _
        _ ≤ v := hmin_le
    have hlast : v ≤ lastD edges := by
      rw [hE, npUnique, dedupSorted_lastD]
      calc v ≤ min (lastD (sortQ data)) 250 := le_min hle_max hv250
        _ ≤ lastD (sortQ (rawEdges data)) :=
            sorted_le_lastD (sortQ_sorted _) (mem_sortQ.mpr h1mem)
    obtain ⟨j, hj, hjlt⟩ := binIndex_cover h2 hhead hlast
    rw [bpmCut, hj]
    simp only [Option.some_bind]
    exact getElem?_isSome_of_lt (by omega)

/-- The spec's tempo test vector: a filtered view with tempo values
[60, 60, 90, 120, 180, 240, 260]. -/
def c2data : List ℚ := [60, 60, 90, 120, 180, 240, 260]

/-- C2 counterexample: on the spec's own test vector the code clips only the
bin EDGES at 250 (the top quantile edge 260 becomes 250); the tempo value 260
itself is never clamped, so `pd.cut` leaves it outside every interval and the
record with tempo 260 is assigned NO bin label -- not "exactly one" as the
claim states.  (Under the claimed clamp-the-values semantics, 260 would land
in the last bin "228-250".) -/
theorem C2_clamp_counterexample :
    bpmBins c2data =
      Except.ok ([60, 66, 102, 156, 228, 250],
        ["60-66", "66-102", "102-156", "156-228", "228-250"]) ∧
    bpmCut [60, 66, 102, 156, 228, 250]
      ["60-66", "66-102", "102-156", "156-228", "228-250"] 260 = none ∧
    (260 : ℚ) ∈ c2data := by
  have hsort : sortQ c2data = c2data := rfl
  have hq0 : quantile c2data 0 = 60 := by rw [quantile_zero]; rfl
  have hq5 : quantile c2data 1 = 260 := by
    rw [quantile_one (by simp [c2data])]; rfl
  have ht2 : Int.toNat 2 = 2 := by decide
  have ht3 : Int.toNat 3 = 3 := by decide
  have ht4 : Int.toNat 4 = 4 := by decide
  have hq1 : quantile c2data (1/5) = 66 := by
    norm_num [quantile, c2data, List.getD_cons_succ, List.getD_cons_zero]
  have hq2 : quantile c2data (2/5) = 102 := by
    norm_num [quantile, c2data, List.getD_cons_succ, List.getD_cons_zero, ht2]
  have hq3 : quantile c2data (3/5) = 156 := by
    norm_num [quantile, c2data, List.getD_cons_succ, List.getD_cons_zero, ht3]
  have hq4 : quantile c2data (4/5) = 228 := by
    norm_num [quantile, c2data, List.getD_cons_succ, List.getD_cons_zero, ht4]
  have hraw : rawEdges c2data = [60, 66, 102, 156, 228, 250] := by
    rw [rawEdges, hsort]
    simp only [linspace6, List.map_cons, List.map_nil, hq0, hq1, hq2, hq3,
      hq4, hq5]
    norm_num [min_def]
  have hnp : npUnique [(60:ℚ), 66, 102, 156, 228, 250] =
      [60, 66, 102, 156, 228, 250] := rfl
  have hp60 : pyInt (60:ℚ) = 60 := by norm_num [pyInt]
  have hp66 : pyInt (66:ℚ) = 66 := by norm_num [pyInt]
  have hp102 : pyInt (102:ℚ) = 102 := by norm_num [pyInt]
  have hp156 : pyInt (156:ℚ) = 156 := by norm_num [pyInt]
  have hp228 : pyInt (228:ℚ) = 228 := by norm_num [pyInt]
  have hp250 : pyInt (250:ℚ) = 250 := by norm_num [pyInt]
  have hlabels : mkLabels [(60:ℚ), 66, 102, 156, 228, 250] =
      ["60-66", "66-102", "102-156", "156-228", "228-250"] := by
    simp only [mkLabels, hp60, hp66, hp102, hp156, hp228, hp250]
    rfl
  refine ⟨?_, rfl, by simp [c2data]⟩
  rw [bpmBins_expand (by simp [c2data]), hraw, hnp, hlabels]
  rw [if_pos (by decide)]

/-- A tempo sample with every value at most 250 (ties included). -/
def c2dataW : List ℚ := [60, 60, 90, 120, 180, 240]

/-- C2 amended witness: on the all-below-250 sample [60,60,90,120,180,240] the
bins compute successfully to 4 strictly increasing edges-intervals, all edges
at most 250, and every sample value receives a label. -/
theorem C2_binning_amended_witness :
    (["60-90", "90-120", "120-180", "180-240"] : List String).length ≤ 5 ∧
    List.Chain' (fun a b => a < b) [(60:ℚ), 90, 120, 180, 240] ∧
    (∀ e ∈ [(60:ℚ), 90, 120, 180, 240], e ≤ 250) ∧
    (2 ≤ ([(60:ℚ), 90, 120, 180, 240] : List ℚ).length →
      ∀ v ∈ c2dataW, (bpmCut [(60:ℚ), 90, 120, 180, 240]
        ["60-90", "90-120", "120-180", "180-240"] v).isSome = true) := by
  have hsort : sortQ c2dataW = c2dataW := rfl
  have hq0 : quantile c2dataW 0 = 60 := by rw [quantile_zero]; rfl
  have hq5 : quantile c2dataW 1 = 240 := by
    rw [quantile_one (by simp [c2dataW])]; rfl
  have ht2 : Int.toNat 2 = 2 := by decide
  have ht3 : Int.toNat 3 = 3 := by decide
  have ht4 : Int.toNat 4 = 4 := by decide
  have hq1 : quantile c2dataW (1/5) = 60 := by
    norm_num [quantile, c2dataW, List.getD_cons_succ, List.getD_cons_zero]
  have hq2 : quantile c2dataW (2/5) = 90 := by
    norm_num [quantile, c2dataW, List.getD_cons_succ, List.getD_cons_zero, ht2]
  have hq3 : quantile c2dataW (3/5) = 120 := by
    norm_num [quantile, c2dataW, List.getD_cons_succ, List.getD_cons_zero, ht3]
  have hq4 : quantile c2dataW (4/5) = 180 := by
    norm_num [quantile, c2dataW, List.getD_cons_succ, List.getD_cons_zero, ht4]
  have hraw : rawEdges c2dataW = [60, 60, 90, 120, 180, 240] := by
    rw [rawEdges, hsort]
    simp only [linspace6, List.map_cons, List.map_nil, hq0, hq1, hq2, hq3,
      hq4, hq5]
    norm_num [min_def]
  have hnp : npUnique [(60:ℚ), 60, 90, 120, 180, 240] =
      [60, 90, 120, 180, 240] := rfl
  have hp60 : pyInt (60:ℚ) = 60 := by norm_num [pyInt]
  have hp90 : pyInt (90:ℚ) = 90 := by norm_num [pyInt]
  have hp120 : pyInt (120:ℚ) = 120 := by norm_num [pyInt]
  have hp180 : pyInt (180:ℚ) = 180 := by norm_num [pyInt]
  have hp240 : pyInt (240:ℚ) = 240 := by norm_num [pyInt]
  have hlabels : mkLabels [(60:ℚ), 90, 120, 180, 240] =
      ["60-90", "90-120", "120-180", "180-240"] := by
    simp only [mkLabels, hp60, hp90, hp120, hp180, hp240]
    rfl
  have hok : bpmBins c2dataW =
      Except.ok ([(60:ℚ), 90, 120, 180, 240],
        ["60-90", "90-120", "120-180", "180-240"]) := by
    rw [bpmBins_expand (by simp [c2dataW]), hraw, hnp, hlabels]
    rw [if_pos (by decide)]
  exact C2_binning_amended c2dataW [(60:ℚ), 90, 120, 180, 240]
    ["60-90", "90-120", "120-180", "180-240"]
    (by intro v hv; fin_cases hv <;> norm_num) hok

theorem bpmBins_duplicate_labels :
    bpmBins [100, 101] =
      Except.error "labels must be unique if ordered=True" := by
  have hsort : sortQ [(100:ℚ), 101] = [100, 101] := rfl
  have hq0 : quantile [(100:ℚ), 101] 0 = 100 := by rw [quantile_zero]; rfl
  have hq5 : quantile [(100:ℚ), 101] 1 = 101 := by
    rw [quantile_one (by simp)]; rfl
  have hq1 : quantile [(100:ℚ), 101] (1/5) = 501/5 := by
    norm_num [quantile, List.getD_cons_succ, List.getD_cons_zero]
  have hq2 : quantile [(100:ℚ), 101] (2/5) = 502/5 := by
    norm_num [quantile, List.getD_cons_succ, List.getD_cons_zero]
  have hq3 : quantile [(100:ℚ), 101] (3/5) = 503/5 := by
    norm_num [quantile, List.getD_cons_succ, List.getD_cons_zero]
  have hq4 : quantile [(100:ℚ), 101] (4/5) = 504/5 := by
    norm_num [quantile, List.getD_cons_succ, List.getD_cons_zero]
  have hraw : rawEdges [100, 101] =
      [100, 501/5, 502/5, 503/5, 504/5, 101] := by
    rw [rawEdges, hsort]
    simp only [linspace6, List.map_cons, List.map_nil, hq0, hq1, hq2, hq3,
      hq4, hq5]
    norm_num [min_def]
  have hnp : npUnique [(100:ℚ), 501/5, 502/5, 503/5, 504/5, 101] =
      [100, 501/5, 502/5, 503/5, 504/5, 101] := by
    norm_num [npUnique, sortQ, List.insertionSort, List.orderedInsert,
      dedupSorted]
  have hp100 : pyInt (100:ℚ) = 100 := by norm_num [pyInt]
  have hp1 : pyInt (501/5 : ℚ) = 100 := by norm_num [pyInt]
  have hp2 : pyInt (502/5 : ℚ) = 100 := by norm_num [pyInt]
  have hp3 : pyInt (503/5 : ℚ) = 100 := by norm_num [pyInt]
  have hp4 : pyInt (504/5 : ℚ) = 100 := by norm_num [pyInt]
  have hp101 : pyInt (101:ℚ) = 101 := by norm_num [pyInt]
  have hlabels : mkLabels [(100:ℚ), 501/5, 502/5, 503/5, 504/5, 101] =
      ["100-100", "100-100", "100-100", "100-100", "100-101"] := by
    simp only [mkLabels, hp100, hp1, hp2, hp3, hp4, hp101]
    rfl
  rw [bpmBins_expand (by simp), hraw, hnp, hlabels]
  rw [if_neg (by decide)]

/-- C8 amended witness: a two-record view with tempo values 100 and 101 gives
six distinct quantile edges whose integer-truncated labels collide
("100-100" four times); `pd.cut` raises, the warning is surfaced, and every
other view is still produced. -/
theorem C8_binning_failure_isolated_witness :
    (runSession [c8a, c8b] ⟨0, 10, 0, 10, some (0, 250)⟩ 0 1).bpmBox =
      VOut.uiWarning ("Could not compute BPM bins: " ++
        "labels must be unique if ordered=True") ∧
    (runSession [c8a, c8b] ⟨0, 10, 0, 10, some (0, 250)⟩ 0 1).primaryRows =
      primaryView (cleanTable [c8a, c8b]) ⟨0, 10, 0, 10, some (0, 250)⟩ ∧
    (runSession [c8a, c8b] ⟨0, 10, 0, 10, some (0, 250)⟩ 0 1).hoursScatter =
      VOut.rowsChart (primaryView (cleanTable [c8a, c8b])
        ⟨0, 10, 0, 10, some (0, 250)⟩) ∧
    (runSession [c8a, c8b] ⟨0, 10, 0, 10, some (0, 250)⟩ 0 1).effectsHist =
      VOut.rowsChart (primaryView (cleanTable [c8a, c8b])
        ⟨0, 10, 0, 10, some (0, 250)⟩) ∧
    (runSession [c8a, c8b] ⟨0, 10, 0, 10, some (0, 250)⟩ 0 1).bpmScatter =
      VOut.rowsChart (primaryView (cleanTable [c8a, c8b])
        ⟨0, 10, 0, 10, some (0, 250)⟩) ∧
    (runSession [c8a, c8b] ⟨0, 10, 0, 10, some (0, 250)⟩ 0 1).genre =
      genreView (primaryView (cleanTable [c8a, c8b])
        ⟨0, 10, 0, 10, some (0, 250)⟩) ∧
    (runSession [c8a, c8b] ⟨0, 10, 0, 10, some (0, 250)⟩ 0 1).listening =
      listeningView (primaryView (cleanTable [c8a, c8b])
        ⟨0, 10, 0, 10, some (0, 250)⟩) ∧
    (runSession [c8a, c8b] ⟨0, 10, 0, 10, some (0, 250)⟩ 0 1).age =
      ageView (cleanTable [c8a, c8b]) 0 1 := by
  have havga : avgHealth c8a = some 1 := by
    simp [avgHealth, healthVals, c8a, List.filterMap_cons]
    norm_num
  have havgb : avgHealth c8b = some 1 := by
    simp [avgHealth, healthVals, c8b, List.filterMap_cons]
    norm_num
  have hfv : primaryView (cleanTable [c8a, c8b])
      ⟨0, 10, 0, 10, some (0, 250)⟩ = [c8a, c8b] := by
    rw [show cleanTable [c8a, c8b] = [c8a, c8b] from rfl]
    have qa1 : optBetween c8a.hoursPerDay 0 10 = true := by
      rw [show c8a.hoursPerDay = some 2 from rfl]
      norm_num [optBetween, between]
    have qa2 : optBetween (avgHealth c8a) 0 10 = true := by
      rw [havga]; norm_num [optBetween, between]
    have qb1 : optBetween c8b.hoursPerDay 0 10 = true := by
      rw [show c8b.hoursPerDay = some 3 from rfl]
      norm_num [optBetween, between]
    have qb2 : optBetween (avgHealth c8b) 0 10 = true := by
      rw [havgb]; norm_num [optBetween, between]
    have pa : optBetween c8a.bpm 0 250 = true := by
      rw [show c8a.bpm = some 100 from rfl]
      norm_num [optBetween, between]
    have pb : optBetween c8b.bpm 0 250 = true := by
      rw [show c8b.bpm = some 101 from rfl]
      norm_num [optBetween, between]
    simp only [primaryView]
    simp [List.filter_cons, qa1, qa2, qb1, qb2, pa, pb]
  have herr : bpmBins ((primaryView (cleanTable [c8a, c8b])
      ⟨0, 10, 0, 10, some (0, 250)⟩).filterMap (fun r => r.bpm)) =
      Except.error "labels must be unique if ordered=True" := by
    rw [hfv]
    rw [show ([c8a, c8b] : List Record).filterMap (fun r => r.bpm) =
      [100, 101] from rfl]
    exact bpmBins_duplicate_labels
  exact C8_binning_failure_isolated [c8a, c8b] ⟨0, 10, 0, 10, some (0, 250)⟩
    0 1 (0, 250) "labels must be unique if ordered=True" rfl herr
